import Mathlib

set_option maxHeartbeats 1000000

/-!
Shallow embedding of the `splitter` repository (src/runpod_handler.py and
src/deploy.py): the data model, the request-handler pipeline and the
deploy-script outputs, with theorems checking the specification's claims.

Modelling conventions:
* External effects (GPU probe, temporary directories, network download, the
  demucs subprocess, filesystem queries, file reads, clock) are oracles
  collected in a `World` record; the handler is a pure function of the
  event and the world.  It additionally returns the list of effects it
  performed, in order, and the module-level `MODELS` table it was given
  (threaded as state, to express that the source never writes it).
* Python floats are never computed with on the translated code paths; the
  `overlap` parameter is kept as its textual representation (only ever
  formatted into the command line) and the processing time is modelled as
  an integer number of centiseconds, making `round(t, 2)` exact.
* Bytes are modelled as natural numbers below 256.
-/

/-- Configuration record for one entry of the `MODELS` table.  The source
stores `max_segment` as the float `7.8` on the three hybrid-transformer
models and omits the key on the mdx family; it is modelled in tenths of a
second (`some 78`) to stay within exact arithmetic. -/
structure ModelConfig where
  memory_required : Nat
  segment_default : Int
  max_segment_tenths : Option Nat
deriving DecidableEq

/-- The module-level `MODELS` table (src/runpod_handler.py lines 33-41), in
insertion order. -/
def MODELS : List (String × ModelConfig) :=
  [("htdemucs", ⟨7000, 7, some 78⟩),
   ("htdemucs_ft", ⟨8000, 7, some 78⟩),
   ("htdemucs_6s", ⟨9000, 7, some 78⟩),
   ("mdx", ⟨4000, 15, none⟩),
   ("mdx_extra", ⟨4000, 15, none⟩),
   ("mdx_q", ⟨3000, 15, none⟩),
   ("mdx_extra_q", ⟨3000, 15, none⟩)]

/-- Translation of `os.path.join` for the simple relative components this
program joins (no absolute second component ever occurs). -/
def path_join (a b : String) : String := a ++ "/" ++ b

/-- Translation of Python `str(list_of_strings)` as used by
`list(MODELS.keys())` in the invalid-model error message. -/
def py_str_list (xs : List String) : String :=
  "[" ++ String.intercalate ", " (xs.map fun s => "\x27" ++ s ++ "\x27") ++ "]"

/-- Python truthiness of an optional string (`if two_stems:`): both `None`
and the empty string are falsy. -/
def str_opt_truthy : Option String → Bool
  | none => false
  | some s => !(s == "")

/-- `get_optimal_segment_size` (src/runpod_handler.py lines 54-64).  The
source reads the module-level `MODELS`; the table is passed explicitly
here.  `MODELS.get(model, MODELS["htdemucs"])` is modelled with the
`"htdemucs"` entry looked up as the default (the source would raise a
`KeyError` were that key absent; every caller passes the table above,
which contains it, so the final fallback record is never reached). -/
def get_optimal_segment_size (models : List (String × ModelConfig))
    (model : String) (gpu_available : Bool) : Int :=
  if !gpu_available then 30
  else if model ∈ ["htdemucs", "htdemucs_ft", "htdemucs_6s"] then 7
  else ((models.lookup model).getD
          ((models.lookup "htdemucs").getD ⟨7000, 7, some 78⟩)).segment_default

/-- The alphabet of standard base64. -/
def b64alphabet : List Char :=
  "ABCDEFGHIJKLMNOPQRSTUVWXYZabcdefghijklmnopqrstuvwxyz0123456789+/".toList

/-- Character for one six-bit group of standard base64. -/
def b64char (n : Nat) : Char := b64alphabet.getD n 'A'

/-- Standard base64 of a byte string (`base64.b64encode(...).decode("utf-8")`),
on bytes modelled as naturals below 256. -/
def b64encode : List Nat → String
  | [] => ""
  | [a] => String.mk [b64char (a / 4), b64char (a % 4 * 16)] ++ "=="
  | [a, b] =>
      String.mk [b64char (a / 4), b64char (a % 4 * 16 + b / 16),
                 b64char (b % 16 * 4)] ++ "="
  | a :: b :: c :: rest =>
      String.mk [b64char (a / 4), b64char (a % 4 * 16 + b / 16),
                 b64char (b % 16 * 4 + c / 64), b64char (c % 64)] ++ b64encode rest

/-- Outcome of one `subprocess.run` invocation, as far as the handler
observes it: either the timeout expired or the process completed with a
return code and captured output streams. -/
inductive SubprocOutcome where
  | timeout
  | completed (returncode : Int) (stdout : String) (stderr : String)
deriving DecidableEq

/-- The argument record of `run_demucs_separation`
(src/runpod_handler.py lines 80-90). -/
structure SepParams where
  input_path : String
  output_dir : String
  model : String
  two_stems : Option String
  segment : Int
  shifts : Int
  overlap : String
  mp3_bitrate : Int
  float32 : Bool
deriving DecidableEq

/-- The demucs command line assembled by `run_demucs_separation`
(src/runpod_handler.py lines 96-121). -/
def demucs_cmd (p : SepParams) : List String :=
  ["python3", "-m", "demucs"]
    ++ (if p.float32 then ["--float32"]
        else ["--mp3", "--mp3-bitrate", toString p.mp3_bitrate])
    ++ (if str_opt_truthy p.two_stems then ["--two-stems", p.two_stems.getD ""]
        else [])
    ++ ["-n", p.model]
    ++ ["--out", p.output_dir, "--segment", toString p.segment,
        "--shifts", toString p.shifts, "--overlap", p.overlap]
    ++ [p.input_path]

/-- One observable external effect of a handler run, in the order the
handler performs them.  Pure oracle reads (`os.path.exists`, `os.listdir`,
`os.path.isdir`) are not traced; reading a stem file for encoding is the
`readFileE` event. -/
inductive Effect where
  | gpuProbe
  | mkdtempE
  | makedirsE (dir : String)
  | downloadE (url : String) (filepath : String)
  | runSubprocessE (cmd : List String) (timeout_s : Nat)
  | libraryCallE (p : SepParams)
  | readFileE (path : String)
  | cleanupE (dir : String)
deriving DecidableEq

/-- The external world a single request runs against: every source of
nondeterminism the handler touches, fixed as oracles.  `library_separate`
is the behaviour of the same external tool when invoked through a library
call; it is used only by the spec-modelled library variant of the
handler. -/
structure World where
  gpu_available : Bool
  temp_dir : String
  uuid_hex : String
  urlretrieve : String → String → Except String Unit
  run_subprocess : List String → Nat → SubprocOutcome
  path_exists : String → Bool
  listdir : String → List String
  is_dir : String → Bool
  read_file : String → Except String (List Nat)
  elapsed_cs : Int
  library_separate : SepParams → SubprocOutcome

/-- `download_audio` (src/runpod_handler.py lines 66-78): produces the
downloaded file path or the wrapped error message, together with the
download effect. -/
def download_audio (w : World) (url : String) (temp_dir : String) :
    Except String String × List Effect :=
  let filepath := path_join temp_dir ("input_" ++ w.uuid_hex)
  (match w.urlretrieve url filepath with
   | Except.ok _ => Except.ok filepath
   | Except.error e => Except.error ("Failed to download audio: " ++ e),
   [Effect.downloadE url filepath])

/-- The loop of src/runpod_handler.py lines 148-153: the first item of the
listing that is a directory, as a full path. -/
def first_subdir (w : World) (dir : String) : List String → Option String
  | [] => none
  | item :: rest =>
      let item_path := path_join dir item
      if w.is_dir item_path then some item_path else first_subdir w dir rest

/-- The per-stem extension probe of src/runpod_handler.py lines 162-166 and
171-175: try `.wav` then `.mp3`. -/
def find_stem_file (w : World) (dir stem : String) : Option String :=
  if w.path_exists (path_join dir (stem ++ ".wav")) then
    some (path_join dir (stem ++ ".wav"))
  else if w.path_exists (path_join dir (stem ++ ".mp3")) then
    some (path_join dir (stem ++ ".mp3"))
  else none

/-- Stem collection (src/runpod_handler.py lines 158-175): in two-stems
mode only the requested stem is looked for; otherwise the four standard
stems, in the source's order, keeping those whose file exists. -/
def collect_stems (w : World) (dir : String) (two_stems : Option String) :
    List (String × String) :=
  if str_opt_truthy two_stems then
    match find_stem_file w dir (two_stems.getD "") with
    | some f => [(two_stems.getD "", f)]
    | none => []
  else
    ["drums", "bass", "other", "vocals"].filterMap fun stem =>
      (find_stem_file w dir stem).map fun f => (stem, f)

/-- `run_demucs_separation` (src/runpod_handler.py lines 80-188): runs the
assembled command with a 300-second timeout and locates the produced stem
files; every `raise` becomes an `Except.error` carrying the exception
message that reaches the handler. -/
def run_demucs_separation (w : World) (p : SepParams) :
    Except String (List (String × String)) × List Effect :=
  let cmd := demucs_cmd p
  (match w.run_subprocess cmd 300 with
   | SubprocOutcome.timeout => Except.error "Demucs process timed out"
   | SubprocOutcome.completed rc _stdout stderr =>
     if rc != 0 then Except.error ("Demucs process failed: " ++ stderr)
     else
       let separated_dir := path_join (path_join p.output_dir "separated") p.model
       if !w.path_exists separated_dir then
         Except.error ("Output directory not found: " ++ separated_dir)
       else
         match first_subdir w separated_dir (w.listdir separated_dir) with
         | none => Except.error ("No output directory found in " ++ separated_dir)
         | some actual_output_dir =>
           let stems := collect_stems w actual_output_dir p.two_stems
           if stems.isEmpty then
             Except.error ("No stem files found in " ++ actual_output_dir)
           else Except.ok stems,
   [Effect.runSubprocessE cmd 300])

/-- `encode_audio_to_base64` (src/runpod_handler.py lines 190-199): read
the file and base64-encode its bytes; a read failure re-raises with the
original message. -/
def encode_audio_to_base64 (w : World) (file_path : String) :
    Except String String × List Effect :=
  (match w.read_file file_path with
   | Except.ok data => Except.ok (b64encode data)
   | Except.error e => Except.error e,
   [Effect.readFileE file_path])

/-- The encoding loop of `handler` (src/runpod_handler.py lines 290-300):
encode each collected stem in order, stopping at the first failure with
the error message the handler returns for it. -/
def encode_stems_loop (w : World) :
    List (String × String) → Except String (List (String × String)) × List Effect
  | [] => (Except.ok [], [])
  | (n, p) :: rest =>
    match encode_audio_to_base64 w p with
    | (Except.ok b, t) =>
      match encode_stems_loop w rest with
      | (Except.ok enc, t2) => (Except.ok ((n, b) :: enc), t ++ t2)
      | (Except.error e, t2) => (Except.error e, t ++ t2)
    | (Except.error e, t) =>
      (Except.error ("Failed to encode " ++ n ++ ": " ++ e), t)

/-- A Python value appearing in the handler's returned dict. -/
inductive RVal where
  | str (s : String)
  | bool (b : Bool)
  | int (n : Int)
  | stemsDict (entries : List (String × String))
deriving DecidableEq

/-- The typed shape of `event["input"]`; `none` in a field is an absent
key, resolved by the source's `dict.get` defaults. -/
structure InputData where
  audio_url : Option String
  model : Option String
  two_stems : Option String
  segment : Option Int
  shifts : Option Int
  overlap : Option String
  mp3_bitrate : Option Int
  float32 : Option Bool
deriving DecidableEq

/-- The request event: `event.get("input", {})` yields the empty input
record when the key is absent. -/
structure Event where
  input : Option InputData
deriving DecidableEq

/-- The empty `input` dict. -/
def emptyInput : InputData := ⟨none, none, none, none, none, none, none, none⟩

/-- The `SepParams` record the handler assembles for
`run_demucs_separation` (src/runpod_handler.py lines 244-287): parameter
defaults, and the segment resolved by `get_optimal_segment_size` when the
request omits it. -/
def request_sep_params (models : List (String × ModelConfig)) (w : World)
    (d : InputData) (input_path : String) : SepParams :=
  { input_path := input_path,
    output_dir := path_join w.temp_dir "output",
    model := d.model.getD "htdemucs",
    two_stems := d.two_stems,
    segment := d.segment.getD
      (get_optimal_segment_size models (d.model.getD "htdemucs") w.gpu_available),
    shifts := d.shifts.getD 0,
    overlap := d.overlap.getD "0.25",
    mp3_bitrate := d.mp3_bitrate.getD 320,
    float32 := d.float32.getD false }

/-- `handler` (src/runpod_handler.py lines 201-335).  Returns the response
dict in the source's key-insertion order, the trace of performed effects,
and the `MODELS` table it was given (each `return` leaves the module state
untouched, as the source does).  The `finally` cleanup is the trailing
`cleanupE`; its own failure is swallowed by the source and not observable
in the response. -/
def handler (models : List (String × ModelConfig)) (w : World)
    (event : Event) :
    (List (String × RVal) × List Effect) × List (String × ModelConfig) :=
  let input_data := event.input.getD emptyInput
  match input_data.audio_url with
  | none =>
      (([("error", RVal.str "Missing required parameter: audio_url")], []), models)
  | some audio_url =>
    let model := input_data.model.getD "htdemucs"
    match models.lookup model with
    | none =>
        (([("error", RVal.str ("Invalid model \x27" ++ model
            ++ "\x27. Available models: " ++ py_str_list (models.map Prod.fst)))],
          []), models)
    | some _ =>
      let gpu_available := w.gpu_available
      let temp_dir := w.temp_dir
      let output_dir := path_join temp_dir "output"
      let pre : List Effect :=
        [Effect.gpuProbe, Effect.mkdtempE, Effect.makedirsE output_dir]
      let dl := download_audio w audio_url temp_dir
      match dl.1 with
      | Except.error e =>
          (([("error", RVal.str ("Separation failed: " ++ e))],
            pre ++ dl.2 ++ [Effect.cleanupE temp_dir]), models)
      | Except.ok input_path =>
        let p := request_sep_params models w input_data input_path
        let sep := run_demucs_separation w p
        match sep.1 with
        | Except.error e =>
            (([("error", RVal.str ("Separation failed: " ++ e))],
              pre ++ dl.2 ++ sep.2 ++ [Effect.cleanupE temp_dir]), models)
        | Except.ok stems =>
          let enc := encode_stems_loop w stems
          match enc.1 with
          | Except.error e =>
              (([("error", RVal.str e)],
                pre ++ dl.2 ++ sep.2 ++ enc.2 ++ [Effect.cleanupE temp_dir]), models)
          | Except.ok encoded_stems =>
              (([("success", RVal.bool true),
                 ("stems", RVal.stemsDict encoded_stems),
                 ("processing_time", RVal.int w.elapsed_cs),
                 ("model_used", RVal.str model),
                 ("gpu_used", RVal.bool gpu_available),
                 ("segment_size", RVal.int p.segment)],
                pre ++ dl.2 ++ sep.2 ++ enc.2 ++ [Effect.cleanupE temp_dir]), models)

/-- Modelled from the spec: the library-call draft of
`run_demucs_separation`.  The repository's library-call handler variant is
not under src/; per the spec it differs from the subprocess one "only in
integration mechanism, not in algorithmic sophistication", so the external
tool is invoked through the `library_separate` oracle on the same
parameter record, and everything around the invocation is identical. -/
def run_demucs_separation_lib (w : World) (p : SepParams) :
    Except String (List (String × String)) × List Effect :=
  (match w.library_separate p with
   | SubprocOutcome.timeout => Except.error "Demucs process timed out"
   | SubprocOutcome.completed rc _stdout stderr =>
     if rc != 0 then Except.error ("Demucs process failed: " ++ stderr)
     else
       let separated_dir := path_join (path_join p.output_dir "separated") p.model
       if !w.path_exists separated_dir then
         Except.error ("Output directory not found: " ++ separated_dir)
       else
         match first_subdir w separated_dir (w.listdir separated_dir) with
         | none => Except.error ("No output directory found in " ++ separated_dir)
         | some actual_output_dir =>
           let stems := collect_stems w actual_output_dir p.two_stems
           if stems.isEmpty then
             Except.error ("No stem files found in " ++ actual_output_dir)
           else Except.ok stems,
   [Effect.libraryCallE p])

/-- Modelled from the spec: the library-call draft of the one-shot request
handler, identical to `handler` except that the separation step goes
through `run_demucs_separation_lib`. -/
def handler_lib (models : List (String × ModelConfig)) (w : World)
    (event : Event) :
    (List (String × RVal) × List Effect) × List (String × ModelConfig) :=
  let input_data := event.input.getD emptyInput
  match input_data.audio_url with
  | none =>
      (([("error", RVal.str "Missing required parameter: audio_url")], []), models)
  | some audio_url =>
    let model := input_data.model.getD "htdemucs"
    match models.lookup model with
    | none =>
        (([("error", RVal.str ("Invalid model \x27" ++ model
            ++ "\x27. Available models: " ++ py_str_list (models.map Prod.fst)))],
          []), models)
    | some _ =>
      let gpu_available := w.gpu_available
      let temp_dir := w.temp_dir
      let output_dir := path_join temp_dir "output"
      let pre : List Effect :=
        [Effect.gpuProbe, Effect.mkdtempE, Effect.makedirsE output_dir]
      let dl := download_audio w audio_url temp_dir
      match dl.1 with
      | Except.error e =>
          (([("error", RVal.str ("Separation failed: " ++ e))],
            pre ++ dl.2 ++ [Effect.cleanupE temp_dir]), models)
      | Except.ok input_path =>
        let p := request_sep_params models w input_data input_path
        let sep := run_demucs_separation_lib w p
        match sep.1 with
        | Except.error e =>
            (([("error", RVal.str ("Separation failed: " ++ e))],
              pre ++ dl.2 ++ sep.2 ++ [Effect.cleanupE temp_dir]), models)
        | Except.ok stems =>
          let enc := encode_stems_loop w stems
          match enc.1 with
          | Except.error e =>
              (([("error", RVal.str e)],
                pre ++ dl.2 ++ sep.2 ++ enc.2 ++ [Effect.cleanupE temp_dir]), models)
          | Except.ok encoded_stems =>
              (([("success", RVal.bool true),
                 ("stems", RVal.stemsDict encoded_stems),
                 ("processing_time", RVal.int w.elapsed_cs),
                 ("model_used", RVal.str model),
                 ("gpu_used", RVal.bool gpu_available),
                 ("segment_size", RVal.int p.segment)],
                pre ++ dl.2 ++ sep.2 ++ enc.2 ++ [Effect.cleanupE temp_dir]), models)

/-- The configuration object `create_runpod_config` builds
(src/deploy.py lines 73-99), with dicts kept as ordered pair lists. -/
structure RunPodConfig where
  name : String
  description : String
  docker_image : String
  container_disk_in_gb : Nat
  volume_in_gb : Nat
  volume_mount_path : String
  ports : List (String × String)
  env : List (String × String)
  startup_command : String
  gpu_types : List String
  min_memory_in_gb : Nat
  min_vcpu : Nat
deriving DecidableEq

/-- Whatever surroundings a run of the deploy script could see; the two
emitting functions take it only to show they ignore it. -/
structure DeployEnv where
  os_environ : List (String × String)
  cwd : String

/-- The literal configuration value of src/deploy.py lines 73-99. -/
def runpod_config_value : RunPodConfig :=
  { name := "voiceai-stem-splitter",
    description := "AI-powered audio stem separation using Demucs",
    docker_image := "voiceai-stem-splitter:latest",
    container_disk_in_gb := 50,
    volume_in_gb := 10,
    volume_mount_path := "/workspace",
    ports := [("8000", "HTTP")],
    env := [("PYTORCH_NO_CUDA_MEMORY_CACHING", "1"),
            ("DEMUCS_MODEL", "htdemucs"),
            ("MAX_SEGMENT", "10")],
    startup_command := "python app.py",
    gpu_types := ["RTX 3080", "RTX 3090", "RTX 4080", "RTX 4090",
                  "A5000", "A6000"],
    min_memory_in_gb := 8,
    min_vcpu := 4 }

/-- `create_runpod_config` (src/deploy.py lines 71-105): writes the fixed
configuration to `runpod_config.json`, modelled as the pair of the file
name and the written object.  JSON serialisation is not modelled. -/
def create_runpod_config (_env : DeployEnv) : String × RunPodConfig :=
  ("runpod_config.json", runpod_config_value)

/-- The literal instruction text of src/deploy.py lines 109-206.  Braces
are `\x7b`/`\x7d` and apostrophes `\x27`. -/
def deployment_instructions_text : String :=
  "\n" ++
  "# RunPod Deployment Instructions\n" ++
  "\n" ++
  "## 1. Upload to RunPod\n" ++
  "\n" ++
  "1. Go to [RunPod Console](https://console.runpod.io)\n" ++
  "2. Create a new template\n" ++
  "3. Upload this entire folder as a zip file\n" ++
  "4. Use the following settings:\n" ++
  "\n" ++
  "### Template Settings:\n" ++
  "- **Name**: voiceai-stem-splitter\n" ++
  "- **Docker Image**: voiceai-stem-splitter:latest\n" ++
  "- **Container Disk**: 50 GB\n" ++
  "- **Volume**: 10 GB\n" ++
  "- **Port**: 8000 (HTTP)\n" ++
  "- **Startup Command**: python app.py\n" ++
  "\n" ++
  "### Environment Variables:\n" ++
  "- PYTORCH_NO_CUDA_MEMORY_CACHING=1\n" ++
  "- DEMUCS_MODEL=htdemucs\n" ++
  "- MAX_SEGMENT=10\n" ++
  "\n" ++
  "### GPU Requirements:\n" ++
  "- Minimum: RTX 3080 (8GB VRAM)\n" ++
  "- Recommended: RTX 4090 (24GB VRAM)\n" ++
  "- Memory: 8GB+ system RAM\n" ++
  "\n" ++
  "## 2. Test Deployment\n" ++
  "\n" ++
  "Once deployed, test with:\n" ++
  "\n" ++
  "```bash\n" ++
  "curl -X GET https://your-runpod-url/health\n" ++
  "```\n" ++
  "\n" ++
  "Expected response:\n" ++
  "```json\n" ++
  "\x7b\n" ++
  "  \"status\": \"healthy\",\n" ++
  "  \"gpu_available\": true,\n" ++
  "  \"models_loaded\": [\"htdemucs\", \"mdx_extra\", \"mdx_q\"],\n" ++
  "  \"active_jobs\": 0\n" ++
  "\x7d\n" ++
  "```\n" ++
  "\n" ++
  "## 3. Usage Example\n" ++
  "\n" ++
  "```bash\n" ++
  "curl -X POST https://your-runpod-url/separate \\\n" ++
  "  -H \"Content-Type: application/json\" \\\n" ++
  "  -d \x27\x7b\n" ++
  "    \"audio_url\": \"https://example.com/song.mp3\",\n" ++
  "    \"model\": \"htdemucs\",\n" ++
  "    \"two_stems\": \"vocals\"\n" ++
  "  \x7d\x27\n" ++
  "```\n" ++
  "\n" ++
  "## 4. Monitor Usage\n" ++
  "\n" ++
  "- Check logs in RunPod console\n" ++
  "- Monitor GPU memory usage\n" ++
  "- Track processing times\n" ++
  "- Set up auto-scaling if needed\n" ++
  "\n" ++
  "## 5. Integration with VoiceAI Studio\n" ++
  "\n" ++
  "Update your main app to use this service:\n" ++
  "\n" ++
  "```javascript\n" ++
  "const response = await fetch(\x27https://your-runpod-url/separate\x27, \x7b\n" ++
  "  method: \x27POST\x27,\n" ++
  "  headers: \x7b \x27Content-Type\x27: \x27application/json\x27 \x7d,\n" ++
  "  body: JSON.stringify(\x7b\n" ++
  "    audio_url: uploadedFileUrl,\n" ++
  "    model: \x27htdemucs\x27,\n" ++
  "    two_stems: \x27vocals\x27  // Optional: karaoke mode\n" ++
  "  \x7d)\n" ++
  "\x7d);\n" ++
  "```\n" ++
  "\n" ++
  "## Troubleshooting\n" ++
  "\n" ++
  "### GPU Memory Issues:\n" ++
  "- Reduce segment size: `\"segment\": 5`\n" ++
  "- Use quantized model: `\"model\": \"mdx_q\"`\n" ++
  "- Enable memory optimization: `PYTORCH_NO_CUDA_MEMORY_CACHING=1`\n" ++
  "\n" ++
  "### Slow Processing:\n" ++
  "- Use smaller models: `mdx_q` instead of `htdemucs`\n" ++
  "- Reduce shifts: `\"shifts\": 0`\n" ++
  "- Increase overlap: `\"overlap\": 0.1`\n" ++
  "\n" ++
  "### File Size Issues:\n" ++
  "- Compress input files\n" ++
  "- Use streaming for large files\n" ++
  "- Implement file size limits\n"

/-- `create_deployment_instructions` (src/deploy.py lines 107-211): writes
the fixed text to `DEPLOYMENT.md`, modelled as the pair of the file name
and the written text. -/
def create_deployment_instructions (_env : DeployEnv) : String × String :=
  ("DEPLOYMENT.md", deployment_instructions_text)

/-- The trace of `download_audio` is the single download effect. -/
lemma download_audio_trace (w : World) (url t : String) :
    (download_audio w url t).2 =
      [Effect.downloadE url (path_join t ("input_" ++ w.uuid_hex))] := rfl

/-- The trace of `run_demucs_separation` is the single subprocess effect,
always carrying the 300-second timeout. -/
lemma run_demucs_trace (w : World) (p : SepParams) :
    (run_demucs_separation w p).2 = [Effect.runSubprocessE (demucs_cmd p) 300] := rfl

/-- When the encoding loop succeeds, the encoded list pairs each collected
stem name with the result of `encode_audio_to_base64` on its file, in
order. -/
lemma encode_stems_loop_forall2 (w : World) :
    ∀ (st enc : List (String × String)),
      (encode_stems_loop w st).1 = Except.ok enc →
      List.Forall₂ (fun sp ep => ep.1 = sp.1 ∧
        (encode_audio_to_base64 w sp.2).1 = Except.ok ep.2) st enc
  | [], enc, h => by
      simp [encode_stems_loop] at h
      subst h
      exact List.Forall₂.nil
  | (n, p) :: rest, enc, h => by
      rcases hr : w.read_file p with err | data
      · simp [encode_stems_loop, encode_audio_to_base64, hr] at h
      · rcases hrest : encode_stems_loop w rest with ⟨r, t2⟩
        rcases r with e2 | enc2
        · simp [encode_stems_loop, encode_audio_to_base64, hr, hrest] at h
        · simp [encode_stems_loop, encode_audio_to_base64, hr, hrest] at h
          refine h ▸ List.Forall₂.cons ⟨rfl, by simp [encode_audio_to_base64, hr]⟩ ?_
          exact encode_stems_loop_forall2 w rest enc2 (by simp [hrest])

/-- Every effect of the encoding loop is a file read. -/
lemma encode_stems_loop_trace (w : World) :
    ∀ (st : List (String × String)), ∀ eff ∈ (encode_stems_loop w st).2,
      ∃ q, eff = Effect.readFileE q
  | [], eff, h => by simp [encode_stems_loop] at h
  | (n, p) :: rest, eff, h => by
      rcases hr : w.read_file p with err | data
      · simp [encode_stems_loop, encode_audio_to_base64, hr] at h
        exact ⟨p, h⟩
      · rcases hrest : encode_stems_loop w rest with ⟨r, t2⟩
        have ht2 : ∀ eff2 ∈ t2, ∃ q, eff2 = Effect.readFileE q := by
          intro eff2 h2
          exact encode_stems_loop_trace w rest eff2 (by simp [hrest]; exact h2)
        rcases r with e2 | enc2
        · simp [encode_stems_loop, encode_audio_to_base64, hr, hrest] at h
          rcases h with h | h
          · exact ⟨p, h⟩
          · exact ht2 eff h
        · simp [encode_stems_loop, encode_audio_to_base64, hr, hrest] at h
          rcases h with h | h
          · exact ⟨p, h⟩
          · exact ht2 eff h

/-- A successful separation returns exactly the non-empty stem collection
of some output directory. -/
lemma run_demucs_ok_shape (w : World) (p : SepParams) (st : List (String × String))
    (h : (run_demucs_separation w p).1 = Except.ok st) :
    ∃ dir, st = collect_stems w dir p.two_stems ∧ st ≠ [] := by
  rcases hs : w.run_subprocess (demucs_cmd p) 300 with _ | ⟨rc, so, se⟩
  · simp [run_demucs_separation, hs] at h
  · by_cases hrc : rc = 0
    · by_cases hex : w.path_exists (path_join (path_join p.output_dir "separated") p.model) = true
      · rcases hfs : first_subdir w (path_join (path_join p.output_dir "separated") p.model)
            (w.listdir (path_join (path_join p.output_dir "separated") p.model)) with _ | actual
        · simp [run_demucs_separation, hs, hrc, hex, hfs] at h
        · by_cases hne : (collect_stems w actual p.two_stems).isEmpty
          · simp [run_demucs_separation, hs, hrc, hex, hfs, hne] at h
          · refine ⟨actual, ?_, ?_⟩
            · simp [run_demucs_separation, hs, hrc, hex, hfs, hne] at h
              exact h.symm
            · intro hnil
              simp [run_demucs_separation, hs, hrc, hex, hfs, hne] at h
              rw [← h] at hnil
              exact hne (by simp [hnil])
      · simp [run_demucs_separation, hs, hrc, hex] at h
    · simp [run_demucs_separation, hs, hrc] at h

/-- Pipeline stage of an effect: setup 0, download 1, external-tool
invocation 2, stem-file read 3, cleanup 4. -/
def effect_stage : Effect → Nat
  | Effect.gpuProbe => 0
  | Effect.mkdtempE => 0
  | Effect.makedirsE _ => 0
  | Effect.downloadE _ _ => 1
  | Effect.runSubprocessE _ _ => 2
  | Effect.libraryCallE _ => 2
  | Effect.readFileE _ => 3
  | Effect.cleanupE _ => 4

/-- Order on effects: an effect of a later pipeline stage. -/
def stage_le (a b : Effect) : Prop := effect_stage a ≤ effect_stage b

/-- A list of effects of one single stage is stage-ordered. -/
lemma pairwise_const_stage (t : List Effect) (k : Nat)
    (h : ∀ e ∈ t, effect_stage e = k) : List.Pairwise stage_le t := by
  induction t with
  | nil => exact List.Pairwise.nil
  | cons a t ih =>
    refine List.Pairwise.cons ?_ (ih fun e he => h e (List.mem_cons_of_mem _ he))
    intro b hb
    unfold stage_le
    rw [h a (List.mem_cons_self _ _), h b (List.mem_cons_of_mem _ hb)]

/-- The full trace shape of a run that reached the encoding loop is
stage-ordered. -/
lemma pairwise_success_trace (od u f td : String) (c : List String) (n : Nat)
    (t3 : List Effect) (h3 : ∀ e ∈ t3, effect_stage e = 3) :
    List.Pairwise stage_le (Effect.gpuProbe :: Effect.mkdtempE :: Effect.makedirsE od ::
      Effect.downloadE u f :: Effect.runSubprocessE c n :: (t3 ++ [Effect.cleanupE td])) := by
  have htail : ∀ b ∈ t3 ++ [Effect.cleanupE td], 3 ≤ effect_stage b := by
    intro b hb
    rcases List.mem_append.mp hb with hb | hb
    · rw [h3 b hb]
    · simp at hb
      subst hb
      simp [effect_stage]
  have hp : List.Pairwise stage_le (t3 ++ [Effect.cleanupE td]) := by
    refine List.pairwise_append.mpr ⟨pairwise_const_stage t3 3 h3,
      List.pairwise_singleton _ _, ?_⟩
    intro a ha b hb
    simp at hb
    subst hb
    unfold stage_le
    rw [h3 a ha]
    simp [effect_stage]
  refine List.Pairwise.cons ?_ (List.Pairwise.cons ?_ (List.Pairwise.cons ?_
    (List.Pairwise.cons ?_ (List.Pairwise.cons ?_ hp)))) <;>
    intro b hb <;>
    simp only [List.mem_cons, List.mem_append, List.mem_singleton] at hb <;>
    unfold stage_le
  · rcases hb with rfl | rfl | rfl | rfl | hb
    · simp [effect_stage]
    · simp [effect_stage]
    · simp [effect_stage]
    · simp [effect_stage]
    · have h1 := htail b (by simpa using hb)
      have h2 : effect_stage Effect.gpuProbe = 0 := rfl
      omega
  · rcases hb with rfl | rfl | rfl | hb
    · simp [effect_stage]
    · simp [effect_stage]
    · simp [effect_stage]
    · have h1 := htail b (by simpa using hb)
      have h2 : effect_stage Effect.mkdtempE = 0 := rfl
      omega
  · rcases hb with rfl | rfl | hb
    · simp [effect_stage]
    · simp [effect_stage]
    · have h1 := htail b (by simpa using hb)
      have h2 : effect_stage (Effect.makedirsE od) = 0 := rfl
      omega
  · rcases hb with rfl | hb
    · simp [effect_stage]
    · have h1 := htail b (by simpa using hb)
      have h2 : effect_stage (Effect.downloadE u f) = 1 := rfl
      omega
  · have h1 := htail b (by simpa using hb)
    have h2 : effect_stage (Effect.runSubprocessE c n) = 2 := rfl
    omega

/-- Case analysis on a successful key lookup in the concrete `MODELS`
table. -/
lemma MODELS_lookup_cases (m : String) (cfg : ModelConfig)
    (h : MODELS.lookup m = some cfg) :
    (m = "htdemucs" ∧ cfg = ⟨7000, 7, some 78⟩) ∨
    (m = "htdemucs_ft" ∧ cfg = ⟨8000, 7, some 78⟩) ∨
    (m = "htdemucs_6s" ∧ cfg = ⟨9000, 7, some 78⟩) ∨
    (m = "mdx" ∧ cfg = ⟨4000, 15, none⟩) ∨
    (m = "mdx_extra" ∧ cfg = ⟨4000, 15, none⟩) ∨
    (m = "mdx_q" ∧ cfg = ⟨3000, 15, none⟩) ∨
    (m = "mdx_extra_q" ∧ cfg = ⟨3000, 15, none⟩) := by
  by_cases h1 : m = "htdemucs"
  · refine Or.inl ⟨h1, ?_⟩
    rw [h1] at h
    exact (Option.some.inj (show some (⟨7000, 7, some 78⟩ : ModelConfig) = some cfg from h)).symm
  by_cases h2 : m = "htdemucs_ft"
  · refine Or.inr (Or.inl ⟨h2, ?_⟩)
    rw [h2] at h
    exact (Option.some.inj (show some (⟨8000, 7, some 78⟩ : ModelConfig) = some cfg from h)).symm
  by_cases h3 : m = "htdemucs_6s"
  · refine Or.inr (Or.inr (Or.inl ⟨h3, ?_⟩))
    rw [h3] at h
    exact (Option.some.inj (show some (⟨9000, 7, some 78⟩ : ModelConfig) = some cfg from h)).symm
  by_cases h4 : m = "mdx"
  · refine Or.inr (Or.inr (Or.inr (Or.inl ⟨h4, ?_⟩)))
    rw [h4] at h
    exact (Option.some.inj (show some (⟨4000, 15, none⟩ : ModelConfig) = some cfg from h)).symm
  by_cases h5 : m = "mdx_extra"
  · refine Or.inr (Or.inr (Or.inr (Or.inr (Or.inl ⟨h5, ?_⟩))))
    rw [h5] at h
    exact (Option.some.inj (show some (⟨4000, 15, none⟩ : ModelConfig) = some cfg from h)).symm
  by_cases h6 : m = "mdx_q"
  · refine Or.inr (Or.inr (Or.inr (Or.inr (Or.inr (Or.inl ⟨h6, ?_⟩)))))
    rw [h6] at h
    exact (Option.some.inj (show some (⟨3000, 15, none⟩ : ModelConfig) = some cfg from h)).symm
  by_cases h7 : m = "mdx_extra_q"
  · refine Or.inr (Or.inr (Or.inr (Or.inr (Or.inr (Or.inr ⟨h7, ?_⟩)))))
    rw [h7] at h
    exact (Option.some.inj (show some (⟨3000, 15, none⟩ : ModelConfig) = some cfg from h)).symm
  · unfold MODELS at h
    simp only [List.lookup] at h
    rw [show (m == "htdemucs") = false by simp [h1],
        show (m == "htdemucs_ft") = false by simp [h2],
        show (m == "htdemucs_6s") = false by simp [h3],
        show (m == "mdx") = false by simp [h4],
        show (m == "mdx_extra") = false by simp [h5],
        show (m == "mdx_q") = false by simp [h6],
        show (m == "mdx_extra_q") = false by simp [h7]] at h
    simp at h

/-- The trace of a run whose download failed is stage-ordered. -/
lemma pairwise_dl_error_trace (od u f td : String) :
    List.Pairwise stage_le [Effect.gpuProbe, Effect.mkdtempE, Effect.makedirsE od,
      Effect.downloadE u f, Effect.cleanupE td] := by
  simp [List.pairwise_cons, stage_le, effect_stage]

/-- The trace of a run whose separation step failed is stage-ordered. -/
lemma pairwise_sep_error_trace (od u f td : String) (c : List String) (n : Nat) :
    List.Pairwise stage_le [Effect.gpuProbe, Effect.mkdtempE, Effect.makedirsE od,
      Effect.downloadE u f, Effect.runSubprocessE c n, Effect.cleanupE td] := by
  simp [List.pairwise_cons, stage_le, effect_stage]

/-- In two-stems mode a non-empty collection is exactly the one requested
stem. -/
lemma collect_stems_two_shape (w : World) (dir t : String) (ht : t ≠ "")
    (hne : collect_stems w dir (some t) ≠ []) :
    ∃ f, collect_stems w dir (some t) = [(t, f)] := by
  have htr : str_opt_truthy (some t) = true := by
    simp [str_opt_truthy, ht]
  rcases hf : find_stem_file w dir t with _ | f
  · exact absurd (by simp [collect_stems, htr, hf]) hne
  · exact ⟨f, by simp [collect_stems, htr, hf]⟩

/-- Successful encoding preserves the stem names, in order. -/
lemma encode_stems_loop_fst (w : World) (st enc : List (String × String))
    (h : (encode_stems_loop w st).1 = Except.ok enc) :
    enc.map Prod.fst = st.map Prod.fst := by
  have hf := encode_stems_loop_forall2 w st enc h
  clear h
  induction hf with
  | nil => rfl
  | cons ha _ ih => simp [ha.1, ih]

/-- C1: for every request event whose separation pipeline succeeds, the
handler returns a dict with "success" = true, "model_used" equal to the
requested model, and "stems" mapping each collected stem name to the
base64 encoding of the bytes of that stem's output file
(`encode_audio_to_base64` applied to each file `run_demucs_separation`
returned), in order. -/
theorem c1_handler_success (models : List (String × ModelConfig)) (w : World)
    (d : InputData) (url ip : String) (cfg : ModelConfig)
    (st enc : List (String × String))
    (hurl : d.audio_url = some url)
    (hm : models.lookup (d.model.getD "htdemucs") = some cfg)
    (hdl : (download_audio w url w.temp_dir).1 = Except.ok ip)
    (hsep : (run_demucs_separation w (request_sep_params models w d ip)).1 = Except.ok st)
    (henc : (encode_stems_loop w st).1 = Except.ok enc) :
    (handler models w ⟨some d⟩).1.1 =
      [("success", RVal.bool true),
       ("stems", RVal.stemsDict enc),
       ("processing_time", RVal.int w.elapsed_cs),
       ("model_used", RVal.str (d.model.getD "htdemucs")),
       ("gpu_used", RVal.bool w.gpu_available),
       ("segment_size", RVal.int (request_sep_params models w d ip).segment)] ∧
    List.Forall₂ (fun sp ep => ep.1 = sp.1 ∧
      (encode_audio_to_base64 w sp.2).1 = Except.ok ep.2) st enc := by
  constructor
  · simp [handler, hurl, hm, hdl, hsep, henc]
  · exact encode_stems_loop_forall2 w st enc henc

/-- C3: for every input event the handler returns a dict (it is a total
function of the event and the world, so no exception propagates), and
every non-success outcome is a dict holding exactly an "error" key, with
no "success" and no "stems" key; moreover, whenever a stage fails — the
download, the separation subprocess or output-file discovery, or the
encoding — the returned dict is exactly the error dict carrying that
stage's failure message. -/
theorem c3_error_shape (models : List (String × ModelConfig)) (w : World) (e : Event) :
    ((∃ msg, (handler models w e).1.1 = [("error", RVal.str msg)]) ∨
     ((handler models w e).1.1.lookup "error" = none ∧
      (handler models w e).1.1.lookup "success" = some (RVal.bool true) ∧
      ∃ enc, (handler models w e).1.1.lookup "stems" = some (RVal.stemsDict enc))) ∧
    (∀ d url cfg, e = ⟨some d⟩ → d.audio_url = some url →
      models.lookup (d.model.getD "htdemucs") = some cfg →
      (∀ msg, (download_audio w url w.temp_dir).1 = Except.error msg →
        (handler models w e).1.1 = [("error", RVal.str ("Separation failed: " ++ msg))]) ∧
      (∀ ip, (download_audio w url w.temp_dir).1 = Except.ok ip →
        ∀ msg, (run_demucs_separation w (request_sep_params models w d ip)).1 =
          Except.error msg →
        (handler models w e).1.1 = [("error", RVal.str ("Separation failed: " ++ msg))]) ∧
      (∀ ip, (download_audio w url w.temp_dir).1 = Except.ok ip →
        ∀ st, (run_demucs_separation w (request_sep_params models w d ip)).1 =
          Except.ok st →
        ∀ msg, (encode_stems_loop w st).1 = Except.error msg →
        (handler models w e).1.1 = [("error", RVal.str msg)])) := by
  constructor
  · rcases he : (e.input.getD emptyInput).audio_url with _ | url
    · exact Or.inl ⟨"Missing required parameter: audio_url", by simp [handler, he]⟩
    · rcases hm : List.lookup ((e.input.getD emptyInput).model.getD "htdemucs") models with _ | cfg
      · exact Or.inl ⟨"Invalid model \x27" ++ (e.input.getD emptyInput).model.getD "htdemucs"
          ++ "\x27. Available models: " ++ py_str_list (models.map Prod.fst),
          by simp [handler, he, hm]⟩
      · rcases hdl : (download_audio w url w.temp_dir).1 with msg | ip
        · exact Or.inl ⟨"Separation failed: " ++ msg, by simp [handler, he, hm, hdl]⟩
        · rcases hsep : (run_demucs_separation w
              (request_sep_params models w (e.input.getD emptyInput) ip)).1 with msg | stems
          · exact Or.inl ⟨"Separation failed: " ++ msg, by simp [handler, he, hm, hdl, hsep]⟩
          · rcases henc : (encode_stems_loop w stems).1 with msg | enc
            · exact Or.inl ⟨msg, by simp [handler, he, hm, hdl, hsep, henc]⟩
            · refine Or.inr ⟨?_, ?_, ⟨enc, ?_⟩⟩ <;>
                simp [handler, he, hm, hdl, hsep, henc, List.lookup]
  · intro d url cfg he hurl hm
    subst he
    refine ⟨?_, ?_, ?_⟩
    · intro msg hdlE
      simp [handler, hurl, hm, hdlE]
    · intro ip hdlO msg hsepE
      simp [handler, hurl, hm, hdlO, hsepE]
    · intro ip hdlO st hsepO msg hencE
      simp [handler, hurl, hm, hdlO, hsepO, hencE]

/-- C4: every demucs subprocess invocation the handler performs carries
the 300-second timeout, and when that timeout expires the handler returns
an error dict whose message reports that the Demucs process timed out. -/
theorem c4_demucs_timeout (models : List (String × ModelConfig)) (w : World)
    (d : InputData) (url ip : String) (cfg : ModelConfig)
    (hurl : d.audio_url = some url)
    (hm : models.lookup (d.model.getD "htdemucs") = some cfg)
    (hdl : (download_audio w url w.temp_dir).1 = Except.ok ip)
    (hto : w.run_subprocess (demucs_cmd (request_sep_params models w d ip)) 300 =
      SubprocOutcome.timeout) :
    (handler models w ⟨some d⟩).1.1 =
      [("error", RVal.str "Separation failed: Demucs process timed out")] ∧
    ((handler models w ⟨some d⟩).1.2.all fun eff =>
      match eff with
      | Effect.runSubprocessE _ n => n == 300
      | _ => true) = true := by
  have hsep : (run_demucs_separation w (request_sep_params models w d ip)).1 =
      Except.error "Demucs process timed out" := by
    simp [run_demucs_separation, hto]
  constructor
  · simp [handler, hurl, hm, hdl, hsep]
  · simp [handler, hurl, hm, hdl, hsep, download_audio_trace, run_demucs_trace]

/-- C7: the handler returns the module-level `MODELS` table unchanged, and
a second call on the resulting module state with the same event and the
same world returns the same result. -/
theorem c7_no_state_across_requests (models : List (String × ModelConfig))
    (w : World) (e : Event) :
    (handler models w e).2 = models ∧
    (handler ((handler models w e).2) w e).1 = (handler models w e).1 := by
  have h : (handler models w e).2 = models := by
    rcases he : (e.input.getD emptyInput).audio_url with _ | url
    · simp [handler, he]
    · rcases hm : List.lookup ((e.input.getD emptyInput).model.getD "htdemucs") models with _ | cfg
      · simp [handler, he, hm]
      · rcases hdl : (download_audio w url w.temp_dir).1 with msg | ip
        · simp [handler, he, hm, hdl]
        · rcases hsep : (run_demucs_separation w
              (request_sep_params models w (e.input.getD emptyInput) ip)).1 with msg | stems
          · simp [handler, he, hm, hdl, hsep]
          · rcases henc : (encode_stems_loop w stems).1 with msg | enc <;>
              simp [handler, he, hm, hdl, hsep, henc]
  exact ⟨h, by rw [h]⟩

/-- C8: when the external tool behaves identically under both integration
mechanisms, the subprocess handler and the spec-modelled library-call
handler return the same response dict and the same module state for every
event. -/
theorem c8_variant_equivalence (models : List (String × ModelConfig)) (w : World)
    (e : Event)
    (hw : ∀ p, w.library_separate p = w.run_subprocess (demucs_cmd p) 300) :
    (handler_lib models w e).1.1 = (handler models w e).1.1 ∧
    (handler_lib models w e).2 = (handler models w e).2 := by
  have hsep_eq : ∀ p, (run_demucs_separation_lib w p).1 = (run_demucs_separation w p).1 := by
    intro p
    simp [run_demucs_separation_lib, run_demucs_separation, hw p]
  rcases he : (e.input.getD emptyInput).audio_url with _ | url
  · simp [handler, handler_lib, he]
  · rcases hm : List.lookup ((e.input.getD emptyInput).model.getD "htdemucs") models with _ | cfg
    · simp [handler, handler_lib, he, hm]
    · rcases hdl : (download_audio w url w.temp_dir).1 with msg | ip
      · simp [handler, handler_lib, he, hm, hdl]
      · have hl := hsep_eq (request_sep_params models w (e.input.getD emptyInput) ip)
        rcases hsep : (run_demucs_separation w
            (request_sep_params models w (e.input.getD emptyInput) ip)).1 with msg | stems
        · simp [handler, handler_lib, he, hm, hdl, hsep, hl.trans hsep]
        · rcases henc : (encode_stems_loop w stems).1 with msg | enc <;>
            simp [handler, handler_lib, he, hm, hdl, hsep, hl.trans hsep, henc]

/-- C10: the handler validates before any side effect: an event without
"audio_url" yields exactly the missing-parameter error dict with an empty
effect trace, and an unknown model yields the invalid-model error dict
naming the model and listing the available models, again with an empty
effect trace (so no download and no subprocess). -/
theorem c10_input_validation (models : List (String × ModelConfig)) (w : World)
    (e : Event) :
    ((e.input.getD emptyInput).audio_url = none →
      (handler models w e).1 =
        ([("error", RVal.str "Missing required parameter: audio_url")], [])) ∧
    (∀ url, (e.input.getD emptyInput).audio_url = some url →
      models.lookup ((e.input.getD emptyInput).model.getD "htdemucs") = none →
      (handler models w e).1 =
        ([("error", RVal.str ("Invalid model \x27"
            ++ (e.input.getD emptyInput).model.getD "htdemucs"
            ++ "\x27. Available models: " ++ py_str_list (models.map Prod.fst)))],
         [])) :=
  ⟨fun h => by simp [handler, h],
   fun url hu hm => by simp [handler, hu, hm]⟩

/-- C2 (amended): when the request sets `two_stems` to a non-empty target
name, the stems mapping of a successful response contains only that
target stem; the aggregate remainder two-stems mode produces on disk is
not collected or returned. -/
theorem c2_two_stems_amended (models : List (String × ModelConfig)) (w : World)
    (d : InputData) (t : String) (enc : List (String × String))
    (ht : d.two_stems = some t) (htne : t ≠ "")
    (hst : (handler models w ⟨some d⟩).1.1.lookup "stems" = some (RVal.stemsDict enc)) :
    enc.map Prod.fst = [t] := by
  rcases he : d.audio_url with _ | url
  · simp [handler, he, List.lookup] at hst
  · rcases hm : List.lookup (d.model.getD "htdemucs") models with _ | cfg
    · simp [handler, he, hm, List.lookup] at hst
    · rcases hdl : (download_audio w url w.temp_dir).1 with msg | ip
      · simp [handler, he, hm, hdl, List.lookup] at hst
      · rcases hsep : (run_demucs_separation w
            (request_sep_params models w d ip)).1 with msg | stems
        · simp [handler, he, hm, hdl, hsep, List.lookup] at hst
        · rcases henc : (encode_stems_loop w stems).1 with msg | enc0
          · simp [handler, he, hm, hdl, hsep, henc, List.lookup] at hst
          · have henceq : enc = enc0 := by
              simp [handler, he, hm, hdl, hsep, henc, List.lookup] at hst
              exact hst.symm
            obtain ⟨dir, hdir, hne⟩ := run_demucs_ok_shape w _ stems hsep
            have htwo : (request_sep_params models w d ip).two_stems = some t := by
              simp [request_sep_params, ht]
            rw [htwo] at hdir
            obtain ⟨f, hf⟩ := collect_stems_two_shape w dir t htne (by
              rw [← hdir]; exact hne)
            have hfst := encode_stems_loop_fst w stems enc0 henc
            rw [henceq, hfst, hdir, hf]
            rfl

/-- C5: when the request omits "segment", the segment size passed to
demucs is `get_optimal_segment_size`: 30 without a GPU; with a GPU, 7 for
the three hybrid-transformer models (below their 7.8-second maximum) and
the model's `segment_default` of 15 for the mdx family; and the demucs
invocation in the trace carries exactly that segment. -/
theorem c5_segment_selection (w : World) (d : InputData) (url ip : String)
    (cfg : ModelConfig)
    (hurl : d.audio_url = some url)
    (hseg : d.segment = none)
    (hm : MODELS.lookup (d.model.getD "htdemucs") = some cfg)
    (hdl : (download_audio w url w.temp_dir).1 = Except.ok ip) :
    (w.gpu_available = false →
      get_optimal_segment_size MODELS (d.model.getD "htdemucs") w.gpu_available = 30) ∧
    (w.gpu_available = true →
      (d.model.getD "htdemucs") ∈ (["htdemucs", "htdemucs_ft", "htdemucs_6s"] : List String) →
      get_optimal_segment_size MODELS (d.model.getD "htdemucs") w.gpu_available = 7 ∧
      cfg.max_segment_tenths = some 78 ∧ (7 : Int) * 10 ≤ 78) ∧
    (w.gpu_available = true →
      (d.model.getD "htdemucs") ∉ (["htdemucs", "htdemucs_ft", "htdemucs_6s"] : List String) →
      get_optimal_segment_size MODELS (d.model.getD "htdemucs") w.gpu_available =
        cfg.segment_default ∧ cfg.segment_default = 15) ∧
    Effect.runSubprocessE (demucs_cmd (request_sep_params MODELS w d ip)) 300 ∈
      (handler MODELS w ⟨some d⟩).1.2 ∧
    (request_sep_params MODELS w d ip).segment =
      get_optimal_segment_size MODELS (d.model.getD "htdemucs") w.gpu_available := by
  have hmemsub : Effect.runSubprocessE (demucs_cmd (request_sep_params MODELS w d ip)) 300 ∈
      (handler MODELS w ⟨some d⟩).1.2 := by
    rcases hsep : (run_demucs_separation w (request_sep_params MODELS w d ip)).1 with msg | stems
    · simp [handler, hurl, hm, hdl, hsep, download_audio_trace, run_demucs_trace]
    · rcases henc : (encode_stems_loop w stems).1 with msg | enc <;>
        simp [handler, hurl, hm, hdl, hsep, henc, download_audio_trace, run_demucs_trace]
  refine ⟨?_, ?_, ?_, hmemsub, ?_⟩
  · intro hg
    simp [get_optimal_segment_size, hg]
  · intro hg hmem
    rcases MODELS_lookup_cases _ _ hm with ⟨hm1, hc⟩ | ⟨hm1, hc⟩ | ⟨hm1, hc⟩ |
        ⟨hm1, hc⟩ | ⟨hm1, hc⟩ | ⟨hm1, hc⟩ | ⟨hm1, hc⟩ <;>
      rw [hm1] at hmem ⊢ <;> rw [hc] <;> simp_all [get_optimal_segment_size]
  · intro hg hmem
    rcases MODELS_lookup_cases _ _ hm with ⟨hm1, hc⟩ | ⟨hm1, hc⟩ | ⟨hm1, hc⟩ |
        ⟨hm1, hc⟩ | ⟨hm1, hc⟩ | ⟨hm1, hc⟩ | ⟨hm1, hc⟩ <;>
      rw [hm1] at hmem ⊢ <;> rw [hc] <;> simp_all [get_optimal_segment_size, MODELS, List.lookup]
  · simp [request_sep_params, hseg]

/-- C9: `create_runpod_config` and `create_deployment_instructions` write
the same fixed configuration object and the same fixed text to
`runpod_config.json` and `DEPLOYMENT.md` on every run, independent of the
environment, with the claimed name, disk size, port, env and GPU lists. -/
theorem c9_static_deploy_outputs (e1 e2 : DeployEnv) :
    create_runpod_config e1 = ("runpod_config.json", runpod_config_value) ∧
    create_runpod_config e1 = create_runpod_config e2 ∧
    runpod_config_value.name = "voiceai-stem-splitter" ∧
    runpod_config_value.container_disk_in_gb = 50 ∧
    runpod_config_value.ports = [("8000", "HTTP")] ∧
    runpod_config_value.env = [("PYTORCH_NO_CUDA_MEMORY_CACHING", "1"),
      ("DEMUCS_MODEL", "htdemucs"), ("MAX_SEGMENT", "10")] ∧
    runpod_config_value.gpu_types = ["RTX 3080", "RTX 3090", "RTX 4080",
      "RTX 4090", "A5000", "A6000"] ∧
    create_deployment_instructions e1 = ("DEPLOYMENT.md", deployment_instructions_text) ∧
    create_deployment_instructions e1 = create_deployment_instructions e2 :=
  ⟨rfl, rfl, rfl, rfl, rfl, rfl, rfl, rfl, rfl⟩

/-- C6: each request is a strictly sequential pipeline: the effect trace
is ordered by stage (setup, download, external tool, file reads, cleanup);
if the download fails no subprocess runs and no file is read, and if the
separation fails no file is read. -/
theorem c6_sequential_pipeline (models : List (String × ModelConfig)) (w : World)
    (d : InputData) (url : String) (cfg : ModelConfig)
    (hurl : d.audio_url = some url)
    (hm : models.lookup (d.model.getD "htdemucs") = some cfg) :
    List.Pairwise stage_le (handler models w ⟨some d⟩).1.2 ∧
    (∀ msg, (download_audio w url w.temp_dir).1 = Except.error msg →
      (∀ c n, Effect.runSubprocessE c n ∉ (handler models w ⟨some d⟩).1.2) ∧
      (∀ q, Effect.readFileE q ∉ (handler models w ⟨some d⟩).1.2)) ∧
    (∀ ip, (download_audio w url w.temp_dir).1 = Except.ok ip →
      ∀ msg, (run_demucs_separation w (request_sep_params models w d ip)).1 =
        Except.error msg →
      ∀ q, Effect.readFileE q ∉ (handler models w ⟨some d⟩).1.2) := by
  rcases hdl : (download_audio w url w.temp_dir).1 with msg | ip
  · refine ⟨?_, ?_, ?_⟩
    · simp [handler, hurl, hm, hdl, download_audio_trace,
        List.pairwise_cons, stage_le, effect_stage]
    · intro msg2 hdl2
      constructor
      · intro c n
        simp [handler, hurl, hm, hdl, download_audio_trace]
      · intro q
        simp [handler, hurl, hm, hdl, download_audio_trace]
    · intro ip hok
      exact Except.noConfusion hok
  · rcases hsep : (run_demucs_separation w (request_sep_params models w d ip)).1 with msg | stems
    · refine ⟨?_, ?_, ?_⟩
      · simp [handler, hurl, hm, hdl, hsep, download_audio_trace, run_demucs_trace,
          List.pairwise_cons, stage_le, effect_stage]
      · intro msg2 hdl2
        exact Except.noConfusion hdl2
      · intro ip2 hok msg2 hsep2
        have hip : ip2 = ip := (Except.ok.inj hok).symm
        subst hip
        intro q
        simp [handler, hurl, hm, hdl, hsep, download_audio_trace, run_demucs_trace]
    · have h3 : ∀ eff ∈ (encode_stems_loop w stems).2, effect_stage eff = 3 := by
        intro eff heff
        obtain ⟨q, rfl⟩ := encode_stems_loop_trace w stems eff heff
        rfl
      have htr : (handler models w ⟨some d⟩).1.2 =
          Effect.gpuProbe :: Effect.mkdtempE ::
          Effect.makedirsE (path_join w.temp_dir "output") ::
          Effect.downloadE url (path_join w.temp_dir ("input_" ++ w.uuid_hex)) ::
          Effect.runSubprocessE (demucs_cmd (request_sep_params models w d ip)) 300 ::
          ((encode_stems_loop w stems).2 ++ [Effect.cleanupE w.temp_dir]) := by
        rcases henc : (encode_stems_loop w stems).1 with msg | enc <;>
          simp [handler, hurl, hm, hdl, hsep, henc, download_audio_trace, run_demucs_trace]
      refine ⟨?_, ?_, ?_⟩
      · rw [htr]
        exact pairwise_success_trace _ _ _ _ _ _ _ h3
      · intro msg2 hdl2
        exact Except.noConfusion hdl2
      · intro ip2 hok msg2 hsep2
        have hip : ip2 = ip := (Except.ok.inj hok).symm
        subst hip
        rw [hsep] at hsep2
        exact Except.noConfusion hsep2

/-- A concrete world in which the whole pipeline succeeds: the download
works, demucs exits 0, the output directory holds `song/vocals.wav`, and
that file reads as the bytes 1, 2, 3. -/
def w_c1 : World :=
  { gpu_available := true,
    temp_dir := "/t",
    uuid_hex := "u",
    urlretrieve := fun _ _ => Except.ok (),
    run_subprocess := fun _ _ => SubprocOutcome.completed 0 "" "",
    path_exists := fun s =>
      s == "/t/output/separated/htdemucs" ||
      s == "/t/output/separated/htdemucs/song/vocals.wav",
    listdir := fun _ => ["song"],
    is_dir := fun _ => true,
    read_file := fun _ => Except.ok [1, 2, 3],
    elapsed_cs := 4520,
    library_separate := fun _ => SubprocOutcome.timeout }

/-- A concrete four-stem request for `htdemucs`. -/
def d_c1 : InputData :=
  { audio_url := some "http://x", model := some "htdemucs", two_stems := none,
    segment := none, shifts := none, overlap := none, mp3_bitrate := none,
    float32 := none }

/-- C1 witness: the success theorem evaluated in a concrete world; the
single collected stem is returned base64-encoded ("AQID" encodes the
bytes 1, 2, 3). -/
theorem c1_handler_success_witness :
    (handler MODELS w_c1 ⟨some d_c1⟩).1.1 =
      [("success", RVal.bool true),
       ("stems", RVal.stemsDict [("vocals", "AQID")]),
       ("processing_time", RVal.int 4520),
       ("model_used", RVal.str "htdemucs"),
       ("gpu_used", RVal.bool true),
       ("segment_size", RVal.int 7)] ∧
    List.Forall₂ (fun sp ep => ep.1 = sp.1 ∧
        (encode_audio_to_base64 w_c1 sp.2).1 = Except.ok ep.2)
      [("vocals", "/t/output/separated/htdemucs/song/vocals.wav")]
      [("vocals", "AQID")] :=
  c1_handler_success MODELS w_c1 d_c1 "http://x" "/t/input_u" ⟨7000, 7, some 78⟩
    [("vocals", "/t/output/separated/htdemucs/song/vocals.wav")] [("vocals", "AQID")]
    rfl (by decide) rfl (by rfl) (by rfl)

/-- A concrete two-stems world: demucs succeeds and the output directory
holds both `vocals.wav` and the `no_vocals.wav` remainder that two-stems
mode produces. -/
def w_c2 : World :=
  { gpu_available := true,
    temp_dir := "/t",
    uuid_hex := "u",
    urlretrieve := fun _ _ => Except.ok (),
    run_subprocess := fun _ _ => SubprocOutcome.completed 0 "" "",
    path_exists := fun s =>
      s == "/t/output/separated/htdemucs" ||
      s == "/t/output/separated/htdemucs/song/vocals.wav" ||
      s == "/t/output/separated/htdemucs/song/no_vocals.wav",
    listdir := fun _ => ["song"],
    is_dir := fun _ => true,
    read_file := fun _ => Except.ok [1, 2, 3],
    elapsed_cs := 4520,
    library_separate := fun _ => SubprocOutcome.timeout }

/-- A concrete request with `two_stems = "vocals"`. -/
def d_c2 : InputData :=
  { audio_url := some "http://x", model := some "htdemucs",
    two_stems := some "vocals", segment := none, shifts := none,
    overlap := none, mp3_bitrate := none, float32 := none }

/-- C2 counterexample: in a run where two-stems mode succeeded and the
remainder file `no_vocals.wav` exists on disk, the returned stems mapping
is exactly `{vocals}`; it holds no "accompaniment" entry, so the claim
that the mapping contains the aggregate remainder fails. -/
theorem c2_two_stems_counterexample :
    (handler MODELS w_c2 ⟨some d_c2⟩).1.1.lookup "success" = some (RVal.bool true) ∧
    (handler MODELS w_c2 ⟨some d_c2⟩).1.1.lookup "stems" =
      some (RVal.stemsDict [("vocals", "AQID")]) ∧
    w_c2.path_exists "/t/output/separated/htdemucs/song/no_vocals.wav" = true ∧
    ([("vocals", "AQID")] : List (String × String)).lookup "accompaniment" = none := by
  decide

/-- C2 witness: the amended theorem at the concrete two-stems run — the
returned mapping names exactly the target stem. -/
theorem c2_two_stems_amended_witness :
    List.map Prod.fst [("vocals", "AQID")] = ["vocals"] :=
  c2_two_stems_amended MODELS w_c2 d_c2 "vocals" [("vocals", "AQID")]
    rfl (by decide) (by decide)

/-- A concrete world whose demucs subprocess hits the timeout. -/
def w_c4 : World :=
  { gpu_available := true,
    temp_dir := "/t",
    uuid_hex := "u",
    urlretrieve := fun _ _ => Except.ok (),
    run_subprocess := fun _ _ => SubprocOutcome.timeout,
    path_exists := fun _ => false,
    listdir := fun _ => [],
    is_dir := fun _ => false,
    read_file := fun _ => Except.error "no",
    elapsed_cs := 0,
    library_separate := fun _ => SubprocOutcome.timeout }

/-- A concrete request used against the timing-out world. -/
def d_c4 : InputData :=
  { audio_url := some "http://x", model := some "htdemucs", two_stems := none,
    segment := none, shifts := none, overlap := none, mp3_bitrate := none,
    float32 := none }

/-- C4 witness: in the timing-out world the handler returns the timeout
error dict and every subprocess effect in the trace carries 300. -/
theorem c4_demucs_timeout_witness :
    (handler MODELS w_c4 ⟨some d_c4⟩).1.1 =
      [("error", RVal.str "Separation failed: Demucs process timed out")] ∧
    ((handler MODELS w_c4 ⟨some d_c4⟩).1.2.all fun eff =>
      match eff with
      | Effect.runSubprocessE _ n => n == 300
      | _ => true) = true :=
  c4_demucs_timeout MODELS w_c4 d_c4 "http://x" "/t/input_u" ⟨7000, 7, some 78⟩
    rfl (by decide) rfl rfl

/-- A concrete GPU world whose separation fails after launch. -/
def w_c5 : World :=
  { gpu_available := true,
    temp_dir := "/t",
    uuid_hex := "u",
    urlretrieve := fun _ _ => Except.ok (),
    run_subprocess := fun _ _ => SubprocOutcome.completed 1 "" "boom",
    path_exists := fun _ => false,
    listdir := fun _ => [],
    is_dir := fun _ => false,
    read_file := fun _ => Except.error "no",
    elapsed_cs := 0,
    library_separate := fun _ => SubprocOutcome.timeout }

/-- A concrete request for the mdx model with "segment" omitted. -/
def d_c5 : InputData :=
  { audio_url := some "http://x", model := some "mdx", two_stems := none,
    segment := none, shifts := none, overlap := none, mp3_bitrate := none,
    float32 := none }

/-- C5 witness: with a GPU and model "mdx", the chosen segment is the
mdx family default 15 and the demucs invocation in the trace carries
it. -/
theorem c5_segment_selection_witness :
    get_optimal_segment_size MODELS (d_c5.model.getD "htdemucs") w_c5.gpu_available = 15 ∧
    Effect.runSubprocessE (demucs_cmd (request_sep_params MODELS w_c5 d_c5 "/t/input_u")) 300 ∈
      (handler MODELS w_c5 ⟨some d_c5⟩).1.2 ∧
    (request_sep_params MODELS w_c5 d_c5 "/t/input_u").segment =
      get_optimal_segment_size MODELS (d_c5.model.getD "htdemucs") w_c5.gpu_available := by
  have h := c5_segment_selection w_c5 d_c5 "http://x" "/t/input_u" ⟨4000, 15, none⟩
    rfl rfl (by decide) rfl
  have h3 := h.2.2.1 rfl (by decide)
  exact ⟨h3.1.trans h3.2, h.2.2.2.1, h.2.2.2.2⟩

/-- A concrete fully successful world for the ordering witness. -/
def w_c6 : World :=
  { gpu_available := true,
    temp_dir := "/t",
    uuid_hex := "u",
    urlretrieve := fun _ _ => Except.ok (),
    run_subprocess := fun _ _ => SubprocOutcome.completed 0 "" "",
    path_exists := fun s =>
      s == "/t/output/separated/htdemucs" ||
      s == "/t/output/separated/htdemucs/song/vocals.wav",
    listdir := fun _ => ["song"],
    is_dir := fun _ => true,
    read_file := fun _ => Except.ok [1, 2, 3],
    elapsed_cs := 4520,
    library_separate := fun _ => SubprocOutcome.timeout }

/-- A concrete world whose download fails. -/
def w_c6b : World :=
  { gpu_available := true,
    temp_dir := "/t",
    uuid_hex := "u",
    urlretrieve := fun _ _ => Except.error "dns",
    run_subprocess := fun _ _ => SubprocOutcome.completed 0 "" "",
    path_exists := fun _ => false,
    listdir := fun _ => [],
    is_dir := fun _ => false,
    read_file := fun _ => Except.error "no",
    elapsed_cs := 0,
    library_separate := fun _ => SubprocOutcome.timeout }

/-- A concrete request used for the ordering witness. -/
def d_c6 : InputData :=
  { audio_url := some "http://x", model := some "htdemucs", two_stems := none,
    segment := none, shifts := none, overlap := none, mp3_bitrate := none,
    float32 := none }

/-- C6 witness: a successful run's trace is stage-ordered, and in a run
whose download fails no subprocess effect and no file read appears. -/
theorem c6_sequential_pipeline_witness :
    List.Pairwise stage_le (handler MODELS w_c6 ⟨some d_c6⟩).1.2 ∧
    Effect.runSubprocessE
        (demucs_cmd (request_sep_params MODELS w_c6b d_c6 "/t/input_u")) 300 ∉
      (handler MODELS w_c6b ⟨some d_c6⟩).1.2 ∧
    Effect.readFileE "/q" ∉ (handler MODELS w_c6b ⟨some d_c6⟩).1.2 := by
  refine ⟨(c6_sequential_pipeline MODELS w_c6 d_c6 "http://x" ⟨7000, 7, some 78⟩
    rfl (by decide)).1, ?_, ?_⟩
  · exact ((c6_sequential_pipeline MODELS w_c6b d_c6 "http://x" ⟨7000, 7, some 78⟩
      rfl (by decide)).2.1 "Failed to download audio: dns" rfl).1
      (demucs_cmd (request_sep_params MODELS w_c6b d_c6 "/t/input_u")) 300
  · exact ((c6_sequential_pipeline MODELS w_c6b d_c6 "http://x" ⟨7000, 7, some 78⟩
      rfl (by decide)).2.1 "Failed to download audio: dns" rfl).2 "/q"

/-- A concrete world in which the subprocess oracle and the library-call
oracle behave identically (demucs exits 1 either way). -/
def w_c8 : World :=
  { gpu_available := false,
    temp_dir := "/t",
    uuid_hex := "u",
    urlretrieve := fun _ _ => Except.ok (),
    run_subprocess := fun _ _ => SubprocOutcome.completed 1 "" "boom",
    path_exists := fun _ => false,
    listdir := fun _ => [],
    is_dir := fun _ => false,
    read_file := fun _ => Except.error "no",
    elapsed_cs := 0,
    library_separate := fun _ => SubprocOutcome.completed 1 "" "boom" }

/-- A concrete request for the equivalence witness. -/
def d_c8 : InputData :=
  { audio_url := some "http://x", model := some "mdx_q", two_stems := none,
    segment := none, shifts := none, overlap := none, mp3_bitrate := none,
    float32 := none }

/-- C8 witness: both handler variants return the same response and state
in the concrete consistent world. -/
theorem c8_variant_equivalence_witness :
    (handler_lib MODELS w_c8 ⟨some d_c8⟩).1.1 = (handler MODELS w_c8 ⟨some d_c8⟩).1.1 ∧
    (handler_lib MODELS w_c8 ⟨some d_c8⟩).2 = (handler MODELS w_c8 ⟨some d_c8⟩).2 :=
  c8_variant_equivalence MODELS w_c8 ⟨some d_c8⟩ (fun _ => rfl)

/-- An inert world: every oracle fails, so any effect would be
visible. -/
def w_c10 : World :=
  { gpu_available := false,
    temp_dir := "",
    uuid_hex := "",
    urlretrieve := fun _ _ => Except.error "down",
    run_subprocess := fun _ _ => SubprocOutcome.timeout,
    path_exists := fun _ => false,
    listdir := fun _ => [],
    is_dir := fun _ => false,
    read_file := fun _ => Except.error "no",
    elapsed_cs := 0,
    library_separate := fun _ => SubprocOutcome.timeout }

/-- An event with no "input" key at all. -/
def e_c10a : Event := ⟨none⟩

/-- An event requesting the unknown model "foo". -/
def e_c10b : Event :=
  ⟨some { audio_url := some "http://x", model := some "foo", two_stems := none,
          segment := none, shifts := none, overlap := none, mp3_bitrate := none,
          float32 := none }⟩

/-- C10 witness: the missing-parameter and invalid-model events each get
their exact error dict with an empty effect trace. -/
theorem c10_input_validation_witness :
    (handler MODELS w_c10 e_c10a).1 =
      ([("error", RVal.str "Missing required parameter: audio_url")], []) ∧
    (handler MODELS w_c10 e_c10b).1 =
      ([("error", RVal.str ("Invalid model \x27foo\x27. Available models: [\x27htdemucs\x27, \x27htdemucs_ft\x27, \x27htdemucs_6s\x27, \x27mdx\x27, \x27mdx_extra\x27, \x27mdx_q\x27, \x27mdx_extra_q\x27]"))], []) :=
  ⟨(c10_input_validation MODELS w_c10 e_c10a).1 rfl,
   (c10_input_validation MODELS w_c10 e_c10b).2 "http://x" rfl (by decide)⟩

/-- A concrete world whose download fails with "dns". -/
def w_c3 : World :=
  { gpu_available := true,
    temp_dir := "/t",
    uuid_hex := "u",
    urlretrieve := fun _ _ => Except.error "dns",
    run_subprocess := fun _ _ => SubprocOutcome.timeout,
    path_exists := fun _ => false,
    listdir := fun _ => [],
    is_dir := fun _ => false,
    read_file := fun _ => Except.error "no",
    elapsed_cs := 0,
    library_separate := fun _ => SubprocOutcome.timeout }

/-- A concrete world in which download, separation and stem discovery
succeed but reading the stem file for encoding fails with "denied". -/
def w_c3b : World :=
  { gpu_available := true,
    temp_dir := "/t",
    uuid_hex := "u",
    urlretrieve := fun _ _ => Except.ok (),
    run_subprocess := fun _ _ => SubprocOutcome.completed 0 "" "",
    path_exists := fun s =>
      s == "/t/output/separated/htdemucs" ||
      s == "/t/output/separated/htdemucs/song/vocals.wav",
    listdir := fun _ => ["song"],
    is_dir := fun _ => true,
    read_file := fun _ => Except.error "denied",
    elapsed_cs := 0,
    library_separate := fun _ => SubprocOutcome.timeout }

/-- A concrete request used against the failing worlds. -/
def d_c3 : InputData :=
  { audio_url := some "http://x", model := some "htdemucs", two_stems := none,
    segment := none, shifts := none, overlap := none, mp3_bitrate := none,
    float32 := none }

/-- C3 witness: a failed download yields exactly the wrapped download
error dict, and a failed stem-file read yields exactly the encode error
dict naming the stem, each an error-only dict with no "success" and no
"stems" key. -/
theorem c3_error_shape_witness :
    (handler MODELS w_c3 ⟨some d_c3⟩).1.1 =
      [("error", RVal.str "Separation failed: Failed to download audio: dns")] ∧
    (handler MODELS w_c3b ⟨some d_c3⟩).1.1 =
      [("error", RVal.str "Failed to encode vocals: denied")] :=
  ⟨((c3_error_shape MODELS w_c3 ⟨some d_c3⟩).2 d_c3 "http://x" ⟨7000, 7, some 78⟩
      rfl rfl (by decide)).1 "Failed to download audio: dns" rfl,
   ((c3_error_shape MODELS w_c3b ⟨some d_c3⟩).2 d_c3 "http://x" ⟨7000, 7, some 78⟩
      rfl rfl (by decide)).2.2 "/t/input_u" rfl
     [("vocals", "/t/output/separated/htdemucs/song/vocals.wav")] rfl
     "Failed to encode vocals: denied" rfl⟩
